/-
Verification of the George Gaussian-process library (src/george/george.h)
against its natural-language specification.

Shallow embedding: Eigen vectors/matrices become dimension-tagged functions
over ℝ; `double` values are read as exact reals (so the source literal
TWOLNPI = 1.8378770664093453, the double closest to ln(2π), is embedded as
`Real.log (2 * π)`); the Eigen `LDLT` factorization is the external
numerical collaborator and is modelled abstractly by its interface used in
the source (`info`, `solve` on vectors and matrices, `vectorD`); `-INFINITY`
returned by `lnlikelihood` becomes `⊥ : EReal`.  Methods that may mutate the
`GaussianProcess` object are state-passing functions returning the updated
object together with the C++ return value.
-/
import Mathlib

open scoped BigOperators

noncomputable section

namespace George

/-- An Eigen `VectorXd`: a length (`rows`, as in Eigen's `rows()`) together
with real entries.  Entries at indices `≥ rows` are irrelevant padding. -/
structure Vec where
  rows : ℕ
  entry : ℕ → ℝ

/-- An Eigen `MatrixXd`: row and column counts plus real entries. -/
structure Mat where
  rows : ℕ
  cols : ℕ
  entry : ℕ → ℕ → ℝ

/-- Eigen's `m.row(i)`: the `i`-th row of a matrix as a vector of length
`cols`. -/
def Mat.row (m : Mat) (i : ℕ) : Vec :=
  ⟨m.cols, fun j => m.entry i j⟩

/-- Eigen's `a.dot(b)` for vectors of equal size (size driven by `a`). -/
def Vec.dot (a b : Vec) : ℝ :=
  ∑ i ∈ Finset.range a.rows, a.entry i * b.entry i

/-- Eigen's `m.trace()`: sum of the diagonal entries. -/
def Mat.trace (m : Mat) : ℝ :=
  ∑ i ∈ Finset.range m.rows, m.entry i i

/-- The quantity `(x1 - x2).dot(x1 - x2)` appearing in both kernel methods: the
squared Euclidean distance between the two input vectors (length driven by
`x1`, as Eigen's subtraction requires equal sizes). -/
def sqDist (x1 x2 : Vec) : ℝ :=
  ∑ i ∈ Finset.range x1.rows, (x1.entry i - x2.entry i) ^ 2

/-- The kernel capability used by the templated `GaussianProcess<KernelType>`:
a parameter count `npars()`, a covariance `evaluate(x1, x2)`, and a gradient
`gradient(x1, x2)` with one component per parameter. -/
structure KernelType where
  npars : ℕ
  evaluate : Vec → Vec → ℝ
  gradient : Vec → Vec → ℕ → ℝ

/-- The base class `George::Kernel` with parameter vector `pars`: `evaluate`
returns `0.0`, `gradient` returns `VectorXd::Zero(pars_.rows())`. -/
def Kernel (pars : Vec) : KernelType where
  npars := pars.rows
  evaluate := fun _ _ => 0
  gradient := fun _ _ _ => 0

/-- The class `George::IsotropicGaussianKernel` with parameter vector `pars`
(`pars[0]` amplitude, `pars[1]` squared length-scale):

* `evaluate`: `chi2 = d.dot(d) / pars_[1]; return pars_[0] * exp(-0.5 * chi2)`
* `gradient`: `e = -0.5 * d.dot(d) / pars_[1]; value = exp(e);
  grad(0) = value; grad(1) = -e / pars_[1] * pars_[0] * value`.

The C++ gradient vector has `pars_.rows()` entries but only indices 0 and 1
are ever written; the embedding leaves the unwritten entries at 0. -/
def IsotropicGaussianKernel (pars : Vec) : KernelType where
  npars := pars.rows
  evaluate := fun x1 x2 =>
    pars.entry 0 * Real.exp (-0.5 * (sqDist x1 x2 / pars.entry 1))
  gradient := fun x1 x2 k =>
    if k = 0 then Real.exp (-0.5 * sqDist x1 x2 / pars.entry 1)
    else if k = 1 then
      -(-0.5 * sqDist x1 x2 / pars.entry 1) / pars.entry 1 * pars.entry 0 *
        Real.exp (-0.5 * sqDist x1 x2 / pars.entry 1)
    else 0

/-- The slice of Eigen's `LDLT<MatrixXd>` interface the source uses: the
decomposition status (`success = (info() == Success)`), `solve` on a vector,
`solve` on a matrix, and the diagonal `vectorD()`.  In Eigen, `info()` after
a `solve` still reports the decomposition's status, so a single flag models
both checks in the source. -/
structure LDLTFact where
  success : Bool
  solve : Vec → Vec
  solveMat : Mat → Mat
  vectorD : Vec

/-- The external linear-algebra collaborator: `decompose m` models the
constructor call `LDLT<MatrixXd>(m)`. -/
structure LinAlg where
  decompose : Mat → LDLTFact

/-- The state of a `George::GaussianProcess<KernelType>` object: the kernel
(held by value), the internal status code `info_`, the `computed_` flag, the
stored training inputs `x_`, and the stored factorization `L_`. -/
structure GaussianProcess where
  kernel : KernelType
  info_ : ℤ
  computed_ : Bool
  x_ : Mat
  L_ : LDLTFact

/-- The constructor `GaussianProcess(kernel)`: sets `info_ = 0`,
`computed_ = false`, and copies the kernel.  `x_` and `L_` are
default-constructed in C++ with unspecified useful content, so the embedding
takes their initial values as parameters. -/
def GaussianProcess.init (k : KernelType) (x0 : Mat) (L0 : LDLTFact) :
    GaussianProcess :=
  { kernel := k, info_ := 0, computed_ := false, x_ := x0, L_ := L0 }

/-- Accessor `info()`. -/
def GaussianProcess.info (gp : GaussianProcess) : ℤ := gp.info_

/-- Accessor `computed()`. -/
def GaussianProcess.computed (gp : GaussianProcess) : Bool := gp.computed_

/-- The covariance matrix `Kxx` built inside `compute`.  The C++ loop writes
each cell exactly once: for `i < j` the pair value `kernel_.evaluate(x.row(i),
x.row(j))` is written to both `Kxx(i,j)` and `Kxx(j,i)`, and the diagonal is
`kernel_.evaluate(x.row(i), x.row(i)) + yerr[i]*yerr[i]`. -/
def buildK (kern : KernelType) (x : Mat) (yerr : Vec) : Mat :=
  ⟨x.rows, x.rows, fun i j =>
    if i = j then kern.evaluate (x.row i) (x.row i) + yerr.entry i * yerr.entry i
    else if i < j then kern.evaluate (x.row i) (x.row j)
    else kern.evaluate (x.row j) (x.row i)⟩

/-- Method `compute(x, yerr)`: stores `x_ = x`, builds the covariance matrix,
factorizes it (`L_ = LDLT<MatrixXd>(Kxx)`), and returns `-1` if the
factorization reports failure, otherwise sets `computed_ = true` and returns
`0`.  Note that in the source `x_` and `L_` are overwritten before the
status check, and `computed_` is left untouched on the failure path. -/
def GaussianProcess.compute (gp : GaussianProcess) (la : LinAlg) (x : Mat)
    (yerr : Vec) : GaussianProcess × ℤ :=
  if (la.decompose (buildK gp.kernel x yerr)).success = false then
    ({ gp with x_ := x, L_ := la.decompose (buildK gp.kernel x yerr) }, -1)
  else
    ({ gp with
        x_ := x
        L_ := la.decompose (buildK gp.kernel x yerr)
        computed_ := true }, 0)

/-- The source constant `TWOLNPI = 1.8378770664093453`, the double closest
to `ln(2π)`; the real-valued embedding reads it as the exact value. -/
def TWOLNPI : ℝ := Real.log (2 * Real.pi)

/-- Method `lnlikelihood(y)`: returns `-INFINITY` (here `⊥ : EReal`) if the process
is not computed or `y.rows() != x_.rows()`, or if the solve reports failure;
otherwise returns
`-0.5 * (y.transpose() * alpha + logdet + y.rows() * TWOLNPI)` where
`alpha = L_.solve(y)` and `logdet = log(L_.vectorD().array()).sum()`.
The method reads but never writes the object's fields; the returned state
makes that explicit. -/
def GaussianProcess.lnlikelihood (gp : GaussianProcess) (y : Vec) :
    GaussianProcess × EReal :=
  if gp.computed_ = false ∨ y.rows ≠ gp.x_.rows then (gp, ⊥)
  else if gp.L_.success = false then (gp, ⊥)
  else
    (gp, ((-0.5 * (y.dot (gp.L_.solve y)
      + (∑ i ∈ Finset.range gp.L_.vectorD.rows, Real.log (gp.L_.vectorD.entry i))
      + (y.rows : ℝ) * TWOLNPI) : ℝ) : EReal))

/-- The `k`-th derivative matrix `dkdt[k]` built inside `gradlnlikelihood`:
the loop runs over `i ≤ j`, writes `kernel_.gradient(x_.row(i), x_.row(j))(k)`
to `dkdt[k](i,j)` and, when `j > i`, mirrors it to `dkdt[k](j,i)`. -/
def buildDK (kern : KernelType) (x : Mat) (n : ℕ) (k : ℕ) : Mat :=
  ⟨n, n, fun i j =>
    if i ≤ j then kern.gradient (x.row i) (x.row j) k
    else kern.gradient (x.row j) (x.row i) k⟩

/-- Method `gradlnlikelihood(y)`: on a dimension/uncomputed failure sets
`info_ = -1` and returns the never-filled result vector; on a solve failure
sets `info_ = -2` and does the same (the C++ result vector is uninitialized
there, modelled by the arbitrary `junk` entries).  Otherwise it returns, per
parameter `k`,
`grad(k) = -0.5 * (L_.solve(dkdt[k]).trace() - Σ_i alpha(i) * alpha.dot(dkdt[k].row(i)))`. -/
def GaussianProcess.gradlnlikelihood (gp : GaussianProcess) (junk : ℕ → ℝ)
    (y : Vec) : GaussianProcess × Vec :=
  if gp.computed_ = false ∨ y.rows ≠ gp.x_.rows then
    ({ gp with info_ := -1 }, ⟨gp.kernel.npars, junk⟩)
  else if gp.L_.success = false then
    ({ gp with info_ := -2 }, ⟨gp.kernel.npars, junk⟩)
  else
    (gp, ⟨gp.kernel.npars, fun k =>
      -0.5 * ((gp.L_.solveMat (buildDK gp.kernel gp.x_ y.rows k)).trace -
        ∑ i ∈ Finset.range y.rows,
          (gp.L_.solve y).entry i *
            (gp.L_.solve y).dot ((buildDK gp.kernel gp.x_ y.rows k).row i))⟩)

/-! ## Concrete test fixtures

Small concrete instances used by witnesses and counterexamples: a trivial
successful factorization, a failing one, collaborators that always succeed,
always fail, or succeed exactly on 1×1 matrices, and tiny training sets. -/

/-- A trivially successful factorization: identity solves, unit diagonal. -/
def okFact : LDLTFact := ⟨true, fun v => v, fun m => m, ⟨1, fun _ => 1⟩⟩

/-- A factorization that reports failure. -/
def badFact : LDLTFact := ⟨false, fun v => v, fun m => m, ⟨1, fun _ => 1⟩⟩

/-- A collaborator whose decomposition always succeeds. -/
def okLA : LinAlg := ⟨fun _ => okFact⟩

/-- A collaborator whose decomposition always fails. -/
def badLA : LinAlg := ⟨fun _ => badFact⟩

/-- A collaborator that succeeds exactly on 1×1 matrices. -/
def oneLA : LinAlg := ⟨fun m => if m.rows = 1 then okFact else badFact⟩

/-- A concrete isotropic kernel with amplitude 1 and scale 1. -/
def kTest : KernelType := IsotropicGaussianKernel ⟨2, fun _ => 1⟩

/-- One training point at the origin in one dimension. -/
def xOne : Mat := ⟨1, 1, fun _ _ => 0⟩

/-- Two training points in one dimension. -/
def xTwo : Mat := ⟨2, 1, fun _ _ => 0⟩

/-- A length-1 zero vector. -/
def eOne : Vec := ⟨1, fun _ => 0⟩

/-- A length-2 zero vector. -/
def eTwo : Vec := ⟨2, fun _ => 0⟩

/-- Arbitrary stand-in for the uninitialized gradient result entries. -/
def wjunk : ℕ → ℝ := fun _ => 0

/-- A process that has been computed successfully (trivial collaborator). -/
def gpOK : GaussianProcess :=
  ((GaussianProcess.init kTest xOne okFact).compute okLA xOne eOne).1

/-- A process computed successfully through `oneLA` on a 1×1 training set;
a second `compute` on a larger set will fail. -/
def gpPrev : GaussianProcess :=
  ((GaussianProcess.init kTest xOne okFact).compute oneLA xOne eOne).1

/-! ## Claims -/

/-- C7: for the isotropic squared-exponential kernel with parameters
`[amplitude, scale]` and any pair of input vectors, `evaluate` equals
`amplitude * exp(-0.5 * ||x1 - x2||^2 / scale)`, `gradient[0]` equals
`exp(-0.5 * ||x1 - x2||^2 / scale)`, and `gradient[1]` equals
`(0.5 * ||x1 - x2||^2 / scale) / scale * amplitude *
exp(-0.5 * ||x1 - x2||^2 / scale)`. -/
theorem C7_isotropic_kernel_formulas (a s : ℝ) (x1 x2 : Vec) :
    (IsotropicGaussianKernel ⟨2, fun k => if k = 0 then a else s⟩).evaluate x1 x2
      = a * Real.exp (-0.5 * sqDist x1 x2 / s) ∧
    (IsotropicGaussianKernel ⟨2, fun k => if k = 0 then a else s⟩).gradient x1 x2 0
      = Real.exp (-0.5 * sqDist x1 x2 / s) ∧
    (IsotropicGaussianKernel ⟨2, fun k => if k = 0 then a else s⟩).gradient x1 x2 1
      = 0.5 * sqDist x1 x2 / s / s * a * Real.exp (-0.5 * sqDist x1 x2 / s) := by
  refine ⟨?_, ?_, ?_⟩
  · show a * Real.exp (-0.5 * (sqDist x1 x2 / s)) = _
    rw [mul_div_assoc]
  · rfl
  · show -(-0.5 * sqDist x1 x2 / s) / s * a * Real.exp (-0.5 * sqDist x1 x2 / s)
      = _
    ring_nf

/-- C6: the covariance matrix built inside `compute` is symmetric, its
off-diagonal entries are the kernel evaluated at the corresponding pair of
input rows, and each diagonal entry is the kernel self-covariance plus the
squared noise value. -/
theorem C6_covariance_matrix (kern : KernelType) (x : Mat) (yerr : Vec)
    (i j : ℕ) (hi : i < x.rows) (hj : j < x.rows) :
    (buildK kern x yerr).entry i j = (buildK kern x yerr).entry j i ∧
    (i ≠ j → (buildK kern x yerr).entry i j
      = kern.evaluate (x.row (min i j)) (x.row (max i j))) ∧
    (buildK kern x yerr).entry i i
      = kern.evaluate (x.row i) (x.row i) + yerr.entry i ^ 2 := by
  refine ⟨?_, ?_, ?_⟩
  · rcases lt_trichotomy i j with h | h | h
    · simp [buildK, h, h.ne, h.ne', lt_asymm h]
    · simp [h]
    · simp [buildK, h, h.ne, h.ne', lt_asymm h]
  · intro hne
    rcases lt_or_gt_of_ne hne with h | h
    · simp [buildK, h, h.ne, min_eq_left h.le, max_eq_right h.le]
    · simp [buildK, h, h.ne', lt_asymm h, min_eq_right h.le, max_eq_left h.le]
  · simp [buildK, sq]

/-- Witness for C6 at the two-point fixture, rows 0 and 1. -/
theorem C6_covariance_matrix_witness :
    (0 < xTwo.rows) ∧ (1 < xTwo.rows) ∧
    ((buildK kTest xTwo eTwo).entry 0 1 = (buildK kTest xTwo eTwo).entry 1 0 ∧
     ((0 : ℕ) ≠ 1 → (buildK kTest xTwo eTwo).entry 0 1
        = kTest.evaluate (xTwo.row (min 0 1)) (xTwo.row (max 0 1))) ∧
     (buildK kTest xTwo eTwo).entry 0 0
        = kTest.evaluate (xTwo.row 0) (xTwo.row 0) + eTwo.entry 0 ^ 2) :=
  ⟨by decide, by decide,
    C6_covariance_matrix kTest xTwo eTwo 0 1 (by decide) (by decide)⟩

/-- C5: `lnlikelihood(y)` returns the negative-infinity sentinel exactly when
the process is not computed, or the length of `y` differs from the stored
training sample count, or the factorization solve reports failure; in the
remaining case the returned value is a real number, never the sentinel. -/
theorem C5_lnlikelihood_sentinel (gp : GaussianProcess) (y : Vec) :
    (gp.lnlikelihood y).2 = ⊥ ↔
      (gp.computed = false ∨ y.rows ≠ gp.x_.rows ∨ gp.L_.success = false) := by
  unfold GaussianProcess.lnlikelihood GaussianProcess.computed
  by_cases h1 : gp.computed_ = false ∨ y.rows ≠ gp.x_.rows
  · rw [if_pos h1]
    rcases h1 with h | h
    · exact iff_of_true rfl (Or.inl h)
    · exact iff_of_true rfl (Or.inr (Or.inl h))
  · rw [if_neg h1]
    push_neg at h1
    by_cases hs : gp.L_.success = false
    · rw [if_pos hs]
      exact iff_of_true rfl (Or.inr (Or.inr hs))
    · rw [if_neg hs]
      constructor
      · intro h
        exact absurd h (EReal.coe_ne_bot _)
      · rintro (h | h | h)
        · exact absurd h h1.1
        · exact absurd h1.2 h
        · exact absurd h hs

/-- C1: on a computed process, for a target vector of matching length whose
solve succeeds, `lnlikelihood(y)` returns
`-0.5 * (y^T * alpha + logdet + n * ln(2*pi))` where `alpha` is the stored
factorization's solution of `K*alpha = y` and `logdet` is the sum of the
logarithms of the factorization's diagonal scaling terms. -/
theorem C1_lnlikelihood_formula (gp : GaussianProcess) (y : Vec)
    (hc : gp.computed = true) (hy : y.rows = gp.x_.rows)
    (hs : gp.L_.success = true) :
    (gp.lnlikelihood y).2 =
      ((-0.5 * (y.dot (gp.L_.solve y)
        + (∑ i ∈ Finset.range gp.L_.vectorD.rows, Real.log (gp.L_.vectorD.entry i))
        + (y.rows : ℝ) * Real.log (2 * Real.pi)) : ℝ) : EReal) := by
  have hc' : gp.computed_ = true := hc
  unfold GaussianProcess.lnlikelihood
  rw [if_neg (by simp [hc', hy]), if_neg (by simp [hs])]
  rfl

/-- Witness for C1 at the computed one-point fixture. -/
theorem C1_lnlikelihood_formula_witness :
    gpOK.computed = true ∧ eOne.rows = gpOK.x_.rows ∧ gpOK.L_.success = true ∧
    (gpOK.lnlikelihood eOne).2 =
      ((-0.5 * (eOne.dot (gpOK.L_.solve eOne)
        + (∑ i ∈ Finset.range gpOK.L_.vectorD.rows,
            Real.log (gpOK.L_.vectorD.entry i))
        + (eOne.rows : ℝ) * Real.log (2 * Real.pi)) : ℝ) : EReal) :=
  ⟨rfl, rfl, rfl, C1_lnlikelihood_formula gpOK eOne rfl rfl rfl⟩

/-- C3 as stated is false: `compute` never clears the `computed_` flag, so a
failing `compute` after an earlier successful one returns `-1` while
`computed()` still reports `true` (here: first call on a 1×1 set succeeds,
second call on a 2-point set fails under the same collaborator). -/
theorem C3_counterexample :
    (gpPrev.compute oneLA xTwo eTwo).2 = -1 ∧
    ((gpPrev.compute oneLA xTwo eTwo).1).computed = true :=
  ⟨rfl, rfl⟩

/-- C3 amended: a `compute` call that returns the failure status `-1` leaves
the `computed` flag unchanged — the process reports uncomputed afterwards
only if it was not already computed; a previously computed instance still
reports `computed() = true`. -/
theorem C3_compute_failure_keeps_flag (gp : GaussianProcess) (la : LinAlg)
    (x : Mat) (yerr : Vec) (h : (gp.compute la x yerr).2 = -1) :
    ((gp.compute la x yerr).1).computed = gp.computed := by
  unfold GaussianProcess.compute at *
  by_cases hs : (la.decompose (buildK gp.kernel x yerr)).success = false
  · rw [if_pos hs]
    rfl
  · rw [if_neg hs] at h
    exact absurd (show (0 : ℤ) = -1 from h) (by decide)

/-- Witness for the amended C3 at the failing second `compute`. -/
theorem C3_compute_failure_keeps_flag_witness :
    (gpPrev.compute oneLA xTwo eTwo).2 = -1 ∧
    ((gpPrev.compute oneLA xTwo eTwo).1).computed = gpPrev.computed :=
  ⟨rfl, C3_compute_failure_keeps_flag gpPrev oneLA xTwo eTwo rfl⟩

/-- C4 as stated is false: `compute` never writes the internal status code,
so after a failing `compute` on a fresh process `info()` still returns the
constructor's `0`, not `-1`. -/
theorem C4_counterexample :
    ((GaussianProcess.init kTest xOne okFact).compute badLA xOne eOne).2 = -1 ∧
    (((GaussianProcess.init kTest xOne okFact).compute badLA xOne eOne).1).info
      = 0 :=
  ⟨rfl, rfl⟩

/-- C4 amended: `compute` returns `0` when the decomposition succeeds and
`-1` when it fails, but leaves the internal status code read by `info()`
unchanged (it is `0` from construction and is written only by
`gradlnlikelihood`). -/
theorem C4_compute_status (gp : GaussianProcess) (la : LinAlg) (x : Mat)
    (yerr : Vec) :
    ((gp.compute la x yerr).1).info = gp.info ∧
    (gp.compute la x yerr).2 =
      (if (la.decompose (buildK gp.kernel x yerr)).success = true then 0
       else -1) := by
  unfold GaussianProcess.compute GaussianProcess.info
  cases hs : (la.decompose (buildK gp.kernel x yerr)).success <;> simp [hs]

/-- C2: on a computed process, for a matching-length target whose solve
succeeds, `gradlnlikelihood(y)` returns a vector of length `npars` whose
`k`-th entry is `-0.5 * (trace(solve(K, dK_k)) - alpha^T * dK_k * alpha)`,
where `alpha` is the stored factorization's solution of `K*alpha = y` and
`dK_k` is the symmetric derivative matrix of the `k`-th kernel-gradient
component over all pairs of stored training inputs (diagonal included, no
noise term).  The hypothesis `ha` records the collaborator's size contract:
Eigen's solve returns a vector of the same length as its input. -/
theorem C2_gradlnlikelihood_formula (gp : GaussianProcess) (junk : ℕ → ℝ)
    (y : Vec) (hc : gp.computed = true) (hy : y.rows = gp.x_.rows)
    (hs : gp.L_.success = true) (ha : (gp.L_.solve y).rows = y.rows)
    (k : ℕ) (hk : k < gp.kernel.npars) :
    (gp.gradlnlikelihood junk y).2.rows = gp.kernel.npars ∧
    (gp.gradlnlikelihood junk y).2.entry k =
      -0.5 * ((gp.L_.solveMat (buildDK gp.kernel gp.x_ y.rows k)).trace
        - ∑ i ∈ Finset.range y.rows, ∑ j ∈ Finset.range y.rows,
            (gp.L_.solve y).entry i
              * (buildDK gp.kernel gp.x_ y.rows k).entry i j
              * (gp.L_.solve y).entry j) := by
  have hc' : gp.computed_ = true := hc
  unfold GaussianProcess.gradlnlikelihood
  rw [if_neg (by simp [hc', hy]), if_neg (by simp [hs])]
  refine ⟨rfl, ?_⟩
  simp only [Vec.dot, Mat.row, ha, Finset.mul_sum]
  congr 1
  congr 1
  exact Finset.sum_congr rfl fun i _ => Finset.sum_congr rfl fun j _ => by ring

/-- Witness for C2 at the computed one-point fixture, parameter 0. -/
theorem C2_gradlnlikelihood_formula_witness :
    gpOK.computed = true ∧ eOne.rows = gpOK.x_.rows ∧ gpOK.L_.success = true ∧
    (gpOK.L_.solve eOne).rows = eOne.rows ∧ 0 < gpOK.kernel.npars ∧
    ((gpOK.gradlnlikelihood wjunk eOne).2.rows = gpOK.kernel.npars ∧
     (gpOK.gradlnlikelihood wjunk eOne).2.entry 0 =
      -0.5 * ((gpOK.L_.solveMat (buildDK gpOK.kernel gpOK.x_ eOne.rows 0)).trace
        - ∑ i ∈ Finset.range eOne.rows, ∑ j ∈ Finset.range eOne.rows,
            (gpOK.L_.solve eOne).entry i
              * (buildDK gpOK.kernel gpOK.x_ eOne.rows 0).entry i j
              * (gpOK.L_.solve eOne).entry j)) :=
  ⟨rfl, rfl, rfl, rfl, by decide,
    C2_gradlnlikelihood_formula gpOK wjunk eOne rfl rfl rfl rfl 0 (by decide)⟩

/-- C8: `gradlnlikelihood(y)` sets the status code read by `info()` to `-1`
when the process is not computed or the target length mismatches, to `-2`
when the solve reports failure (leaving it unchanged otherwise), and in
every failure case returns the never-filled result vector of length
`npars`. -/
theorem C8_gradlnlikelihood_status (gp : GaussianProcess) (junk : ℕ → ℝ)
    (y : Vec) :
    ((gp.gradlnlikelihood junk y).1).info =
      (if gp.computed = false ∨ y.rows ≠ gp.x_.rows then -1
       else if gp.L_.success = false then -2 else gp.info) ∧
    ((gp.computed = false ∨ y.rows ≠ gp.x_.rows ∨ gp.L_.success = false) →
      (gp.gradlnlikelihood junk y).2 = ⟨gp.kernel.npars, junk⟩) := by
  unfold GaussianProcess.gradlnlikelihood GaussianProcess.computed
    GaussianProcess.info
  by_cases h1 : gp.computed_ = false ∨ y.rows ≠ gp.x_.rows
  · rw [if_pos h1, if_pos h1]
    exact ⟨rfl, fun _ => rfl⟩
  · rw [if_neg h1, if_neg h1]
    push_neg at h1
    by_cases hs : gp.L_.success = false
    · rw [if_pos hs, if_pos hs]
      exact ⟨rfl, fun _ => rfl⟩
    · rw [if_neg hs, if_neg hs]
      refine ⟨rfl, fun h => ?_⟩
      rcases h with h | h | h
      · exact absurd h h1.1
      · exact absurd h1.2 h
      · exact absurd h hs

/-- C9: `compute` is deterministic and idempotent — running it a second time
with the same inputs yields the same status code, and the likelihood of any
target is the same after the first and the second run. -/
theorem C9_compute_deterministic (gp : GaussianProcess) (la : LinAlg)
    (x : Mat) (yerr y : Vec) :
    (((gp.compute la x yerr).1).compute la x yerr).2
      = (gp.compute la x yerr).2 ∧
    ((((gp.compute la x yerr).1).compute la x yerr).1.lnlikelihood y).2
      = (((gp.compute la x yerr).1).lnlikelihood y).2 := by
  have key : ((gp.compute la x yerr).1).compute la x yerr
      = gp.compute la x yerr := by
    unfold GaussianProcess.compute
    by_cases hs : (la.decompose (buildK gp.kernel x yerr)).success = false
    · rw [if_pos hs]
      dsimp only
      rw [if_pos hs]
    · rw [if_neg hs]
      dsimp only
      rw [if_neg hs]
  exact ⟨by rw [key], by rw [key]⟩

/-- C10: `lnlikelihood` is observationally pure — it leaves the stored
training inputs, the factorization state, the computed flag and the status
code untouched for every target vector and every process state. -/
theorem C10_lnlikelihood_frame (gp : GaussianProcess) (y : Vec) :
    ((gp.lnlikelihood y).1).x_ = gp.x_ ∧
    ((gp.lnlikelihood y).1).L_ = gp.L_ ∧
    ((gp.lnlikelihood y).1).computed = gp.computed ∧
    ((gp.lnlikelihood y).1).info = gp.info := by
  have key : (gp.lnlikelihood y).1 = gp := by
    unfold GaussianProcess.lnlikelihood
    by_cases h1 : gp.computed_ = false ∨ y.rows ≠ gp.x_.rows
    · rw [if_pos h1]
    · rw [if_neg h1]
      by_cases hs : gp.L_.success = false
      · rw [if_pos hs]
      · rw [if_neg hs]
  rw [key]
  exact ⟨rfl, rfl, rfl, rfl⟩

end George

end
